import Mathlib

/-!
Verification of `src/vendor/clay-renderer/clay_termbox_impl.c`.

The file under verification is a compilation wrapper: it assembles vendored
libraries (a layout engine, a terminal-rendering backend, image libraries)
into one translation unit and exposes two thin helpers,
`Clay_Termbox_Initialize_With_MeasureText` and `Clay_Termbox_SetMeasureText`.

We embed the wrapper shallowly: program state is an explicit structure, each
operation returns the evolved state together with the trace of calls it made
into the vendored libraries, and fallible operations return `Except`.  The
vendored routines themselves are not under `src/`; where their behaviour is
needed it is modelled from the specification (each such definition's doc
comment starts with "Modelled from the spec:").  The wrapper functions are
translated directly from the C source.  The preprocessor structure of the
translation unit is embedded as an ordered list of directives.
-/

namespace ClayTermbox

/-- Pointer values as passed for the user-context argument of the callback
registration: the C `NULL` pointer or some concrete address. -/
inductive Ptr
  | null
  | addr (n : Nat)
deriving DecidableEq

/-- Function pointers that may be registered as the layout engine's
text-measurement callback.  `clayTermboxMeasureText` stands for the vendored
terminal backend's `Clay_Termbox_MeasureText`; `other n` stands for any other
function a hypothetical caller could register. -/
inductive MeasureFn
  | clayTermboxMeasureText
  | other (n : Nat)
deriving DecidableEq

/-- One observable call into the vendored libraries, as emitted by the code
under verification or by the documented startup sequence. -/
inductive BackendCall
  | initTermbox (colorMode : Int) (borderMode borderChars imageMode : Nat)
      (transparency : Bool)
  | initClay
  | setMeasureTextFn (fn : MeasureFn) (ctx : Ptr)
deriving DecidableEq

/-- State of the vendored terminal backend, opaque to the wrapper: whether it
has transitioned from uninitialized to ready, and the display configuration
it was given (color depth mode, border drawing style, border character set,
image rendering mode, transparency flag). -/
structure TermboxState where
  ready : Bool
  colorMode : Int
  borderMode : Nat
  borderChars : Nat
  imageMode : Nat
  transparency : Bool
deriving DecidableEq

/-- The layout engine's process-wide state as visible to this wrapper: its
own init flag and the single global measurement-callback registration (the
callback pointer, `none` when unset, and its user context). -/
structure ClayState where
  initDone : Bool
  measureFn : Option MeasureFn
  measureCtx : Ptr
deriving DecidableEq

/-- Whole program state relevant to the wrapper.  The wrapper file itself
declares no globals, so there is no wrapper-owned component: everything is
either the layout engine's state, the terminal backend's state, or the
environment fact of whether the terminal device can be acquired. -/
structure ProgState where
  clay : ClayState
  termbox : TermboxState
  deviceAvailable : Bool
deriving DecidableEq

/-- Failure modes of terminal-backend initialization (spec 4.1: "Fails
fatally (process abort or propagated error) if the terminal device cannot be
acquired"). -/
inductive TermboxError
  | deviceUnavailable
deriving DecidableEq

/-- Modelled from the spec: the vendored terminal backend's own init routine
` Clay_Termbox_Initialize` (defined in the vendored
`clay_renderer_termbox2.c`, which is not under `src/`).  Spec 4.1:
"initializes the terminal rendering backend with the given display
configuration ... side effect is terminal backend state transition from
uninitialized to ready.  Fails fatally ... if the terminal device cannot be
acquired."  The result pairs the outcome with the trace of vendored calls
performed; the call event is emitted whether or not acquisition succeeds. -/
def Clay_Termbox_Initialize (color_mode : Int)
    (border_mode border_chars image_mode : Nat) (transparency : Bool)
    (s : ProgState) : Except TermboxError ProgState × List BackendCall :=
  ((if s.deviceAvailable then
      Except.ok { s with termbox :=
        { ready := true
          colorMode := color_mode
          borderMode := border_mode
          borderChars := border_chars
          imageMode := image_mode
          transparency := transparency } }
    else Except.error TermboxError.deviceUnavailable),
   [BackendCall.initTermbox color_mode border_mode border_chars image_mode
      transparency])

/-- Modelled from the spec: the vendored layout engine's registration point
`Clay_SetMeasureTextFunction(fn, context)` (spec 6: the layout engine
"expects a SetMeasureTextFunction(fn, context) registration point").  It
writes the single process-wide measurement-callback pointer and its user
context, and touches nothing else. -/
def Clay_SetMeasureTextFunction (fn : MeasureFn) (ctx : Ptr) (s : ProgState) :
    ProgState × List BackendCall :=
  ({ s with clay :=
      { s.clay with measureFn := some fn, measureCtx := ctx } },
   [BackendCall.setMeasureTextFn fn ctx])

/-- Modelled from the spec: the layout engine's own initialization call,
external to the wrapper (spec 4.1: "layout-engine init (external call, not in
this wrapper)").  The wrapper file contains no such call; this definition
exists only to express the documented startup sequence. -/
def clayEngineInit (s : ProgState) : ProgState × List BackendCall :=
  ({ s with clay := { s.clay with initDone := true } }, [BackendCall.initClay])

/-- Embedding of the wrapper function from
`src/vendor/clay-renderer/clay_termbox_impl.c` lines 21-25.  Its body is the
single statement
`Clay_Termbox_Initialize(color_mode, border_mode, border_chars, image_mode, transparency);`
with the five parameters forwarded verbatim; the C function returns `void`. -/
def Clay_Termbox_Initialize_With_MeasureText (color_mode : Int)
    (border_mode border_chars image_mode : Nat) (transparency : Bool)
    (s : ProgState) : Except TermboxError ProgState × List BackendCall :=
  Clay_Termbox_Initialize color_mode border_mode border_chars image_mode
    transparency s

/-- Embedding of the wrapper function from
`src/vendor/clay-renderer/clay_termbox_impl.c` lines 28-30.  Its body is the
single statement
`Clay_SetMeasureTextFunction(Clay_Termbox_MeasureText, NULL);`;
the C function takes no parameters and returns `void`. -/
def Clay_Termbox_SetMeasureText (s : ProgState) :
    ProgState × List BackendCall :=
  Clay_SetMeasureTextFunction MeasureFn.clayTermboxMeasureText Ptr.null s

/-- The program state after a possibly fatal call: on success the evolved
state; on a fatal error the process aborts, so no later state of the run
exists, and we keep the pre-call state in order to express frame
conditions (the failing call itself made no state change of the wrapper's
own). -/
def stateAfter (r : Except TermboxError ProgState) (s : ProgState) :
    ProgState :=
  match r with
  | Except.ok s2 => s2
  | Except.error _ => s

/-- The documented startup sequence (spec 4.1 ordering contract):
terminal-backend init, then layout-engine init, then measurement-callback
registration, with the emitted vendored calls concatenated in order.  If the
terminal init fails fatally the run stops there. -/
def startupRun (color_mode : Int) (border_mode border_chars image_mode : Nat)
    (transparency : Bool) (s : ProgState) :
    Except TermboxError ProgState × List BackendCall :=
  match Clay_Termbox_Initialize_With_MeasureText color_mode border_mode
      border_chars image_mode transparency s with
  | (Except.error e, tr1) => (Except.error e, tr1)
  | (Except.ok s1, tr1) =>
    match clayEngineInit s1 with
    | (s2, tr2) =>
      match Clay_Termbox_SetMeasureText s2 with
      | (s3, tr3) => (Except.ok s3, tr1 ++ tr2 ++ tr3)

/-- The final program state of the documented startup sequence (the pre-run
state when the run aborted fatally). -/
def startupFinalState (color_mode : Int)
    (border_mode border_chars image_mode : Nat) (transparency : Bool)
    (s : ProgState) : ProgState :=
  stateAfter (startupRun color_mode border_mode border_chars image_mode
    transparency s).fst s

/-- Error of the layout engine's text measurement when no measurement
callback has been registered. -/
inductive ClayError
  | measureFunctionNotSet
deriving DecidableEq

/-- Modelled from the spec: the extents the vendored backend measure function
computes for a text run (glossary: "a function the layout engine calls to
determine the pixel/cell extents of a text run").  The exact extents are
owned by the vendored backend and are out of the spec's scope; the model
only fixes some total function so that dispatch can be stated. -/
def applyMeasureFn (fn : MeasureFn) (text : String) : Nat × Nat :=
  match fn with
  | MeasureFn.clayTermboxMeasureText => (text.length, 1)
  | MeasureFn.other _ => (0, 0)

/-- Modelled from the spec: the layout engine measuring a text run (spec 8
and glossary).  If no measurement callback has been registered, measuring
hits the missing-callback error branch; otherwise the registered function is
invoked with the registered user context, and the result records both the
extents and the context pointer the callback was invoked with. -/
def Clay_MeasureTextDispatch (s : ProgState) (text : String) :
    Except ClayError ((Nat × Nat) × Ptr) :=
  match s.clay.measureFn with
  | none => Except.error ClayError.measureFunctionNotSet
  | some fn => Except.ok (applyMeasureFn fn text, s.clay.measureCtx)

/-- Whether measuring `text` in state `s` succeeds (does not hit the
missing-callback error branch). -/
def measureSucceeds (s : ProgState) (text : String) : Bool :=
  match Clay_MeasureTextDispatch s text with
  | Except.ok _ => true
  | Except.error _ => false

/-- A C preprocessor-level item of the translation unit: an object-like
define (with an optional numeric replacement), an include, or a function
definition. -/
inductive CDirective
  | cdefine (name : String) (value : Option Nat)
  | cinclude (path : String)
  | cfunction (name : String)
deriving DecidableEq

/-- The translation unit `src/vendor/clay-renderer/clay_termbox_impl.c`, in
source order. -/
def translationUnit : List CDirective :=
  [ CDirective.cdefine "CLAY_IMPLEMENTATION" none,
    CDirective.cinclude "clay.h",
    CDirective.cdefine "TB_IMPL" none,
    CDirective.cdefine "TB_OPT_ATTR_W" (some 32),
    CDirective.cinclude "../termbox2/termbox2.h",
    CDirective.cdefine "STB_IMAGE_IMPLEMENTATION" none,
    CDirective.cinclude "../stb/stb_image.h",
    CDirective.cdefine "STB_IMAGE_RESIZE_IMPLEMENTATION" none,
    CDirective.cinclude "../stb/stb_image_resize2.h",
    CDirective.cinclude "clay_renderer_termbox2.c",
    CDirective.cfunction "Clay_Termbox_Initialize_With_MeasureText",
    CDirective.cfunction "Clay_Termbox_SetMeasureText" ]

/-- Whether a directive is the include of the given path. -/
def isIncludeOf (path : String) : CDirective → Bool
  | CDirective.cinclude p => p = path
  | _ => false

/-- The directives the preprocessor handles before it reaches the first
include of `path`. -/
def directivesBefore (tu : List CDirective) (path : String) :
    List CDirective :=
  tu.takeWhile (fun d => ! isIncludeOf path d)

/-- The definition status of the flag named `flag` at the point the
preprocessor reaches the first include of `path`: `none` if not defined
there, `some v` if defined with replacement `v` (the innermost `Option` is
`none` for a valueless define). -/
def flagValueAtInclude (tu : List CDirective) (path : String)
    (flag : String) : Option (Option Nat) :=
  (directivesBefore tu path).foldl
    (fun acc d =>
      match d with
      | CDirective.cdefine n v => if n = flag then some v else acc
      | _ => acc)
    none

/-- Modelled from the spec: the attribute width the terminal-rendering
library is compiled with, namely the value of `TB_OPT_ATTR_W` at the point
that library is included (spec 6: "Build-time configuration: a compile-time
flag widening the terminal attribute representation"); 16 is the narrow
default when the flag is absent. -/
def tbAttrWidth (tu : List CDirective) : Nat :=
  match flagValueAtInclude tu "../termbox2/termbox2.h" "TB_OPT_ATTR_W" with
  | some (some w) => w
  | _ => 16

/-- Modelled from the spec: truecolor output requires the widened (32-bit)
attribute representation. -/
def tbSupportsTruecolor (tu : List CDirective) : Bool :=
  decide (32 ≤ tbAttrWidth tu)

/-- A concrete program state with the terminal device acquirable, used by
witnesses. -/
def sampleState : ProgState :=
  { clay := { initDone := false, measureFn := none, measureCtx := Ptr.null }
    termbox :=
      { ready := false
        colorMode := 0
        borderMode := 0
        borderChars := 0
        imageMode := 0
        transparency := false }
    deviceAvailable := true }

/-- A concrete program state where the terminal device cannot be acquired,
used by witnesses for the failure path. -/
def sBad : ProgState :=
  { clay := { initDone := false, measureFn := none, measureCtx := Ptr.null }
    termbox :=
      { ready := false
        colorMode := 0
        borderMode := 0
        borderChars := 0
        imageMode := 0
        transparency := false }
    deviceAvailable := false }

/-- C1: for every tuple of arguments, the wrapper
` Clay_Termbox_Initialize_With_MeasureText` performs exactly one vendored
call, to the terminal backend's init routine, with the same five arguments in
the same order, and its whole observable outcome (the C function returns
void, so that outcome is the state transition plus the emitted call) is
exactly that of the underlying call. -/
theorem claim_C1 (color_mode : Int)
    (border_mode border_chars image_mode : Nat) (transparency : Bool)
    (s : ProgState) :
    ( Clay_Termbox_Initialize_With_MeasureText color_mode border_mode
        border_chars image_mode transparency s).snd
      = [BackendCall.initTermbox color_mode border_mode border_chars
          image_mode transparency]
    ∧ Clay_Termbox_Initialize_With_MeasureText color_mode border_mode
        border_chars image_mode transparency s
      = Clay_Termbox_Initialize color_mode border_mode border_chars
          image_mode transparency s :=
  ⟨rfl, rfl⟩

/-- C2: ` Clay_Termbox_SetMeasureText` registers the terminal backend's
measure function via the layout engine's registration point: its single
vendored call is `Clay_SetMeasureTextFunction` with the backend's measure
function, afterwards that function is the registered callback, and the whole
call (which takes no parameters and returns no value beyond the state
transition) equals the underlying registration call. -/
theorem claim_C2 (s : ProgState) :
    ( Clay_Termbox_SetMeasureText s).snd
      = [BackendCall.setMeasureTextFn MeasureFn.clayTermboxMeasureText
          Ptr.null]
    ∧ ( Clay_Termbox_SetMeasureText s).fst.clay.measureFn
      = some MeasureFn.clayTermboxMeasureText
    ∧ Clay_Termbox_SetMeasureText s
      = Clay_SetMeasureTextFunction MeasureFn.clayTermboxMeasureText
          Ptr.null s :=
  ⟨rfl, rfl, rfl⟩

/-- C3: the wrappers validate nothing, branch on nothing and intercept no
error: each wrapper's result (outcome and emitted calls) equals that of its
single underlying vendored call at the same arguments in every state, so a
failure of the underlying call propagates unchanged; and when the underlying
terminal init fails, the wrapper propagates that very error and has made no
state change of its own. -/
theorem claim_C3 (color_mode : Int)
    (border_mode border_chars image_mode : Nat) (transparency : Bool)
    (s : ProgState) :
    Clay_Termbox_Initialize_With_MeasureText color_mode border_mode
        border_chars image_mode transparency s
      = Clay_Termbox_Initialize color_mode border_mode border_chars
          image_mode transparency s
    ∧ Clay_Termbox_SetMeasureText s
      = Clay_SetMeasureTextFunction MeasureFn.clayTermboxMeasureText
          Ptr.null s
    ∧ (∀ e : TermboxError,
        ( Clay_Termbox_Initialize color_mode border_mode border_chars
            image_mode transparency s).fst = Except.error e →
        ( Clay_Termbox_Initialize_With_MeasureText color_mode border_mode
            border_chars image_mode transparency s).fst = Except.error e
        ∧ stateAfter ( Clay_Termbox_Initialize_With_MeasureText color_mode
            border_mode border_chars image_mode transparency s).fst s = s) :=
  ⟨rfl, rfl, fun e he => ⟨he, by
    have h2 : ( Clay_Termbox_Initialize_With_MeasureText color_mode
        border_mode border_chars image_mode transparency s).fst
        = Except.error e := he
    rw [h2]
    rfl⟩⟩

/-- Witness for C3: at the concrete state whose terminal device is not
acquirable, the underlying init fails with `deviceUnavailable`, the wrapper
propagates exactly that error, and the state is untouched. -/
theorem claim_C3_witness :
    ( Clay_Termbox_Initialize_With_MeasureText 0 0 0 0 false sBad).fst
        = Except.error TermboxError.deviceUnavailable
    ∧ stateAfter ( Clay_Termbox_Initialize_With_MeasureText 0 0 0 0 false
        sBad).fst sBad = sBad :=
  (claim_C3 0 0 0 0 false sBad).2.2 TermboxError.deviceUnavailable rfl

/-- C4: frame effect of ` Clay_Termbox_SetMeasureText`: its one write is of
the callback pointer and its context into the layout engine's process-wide
registration — the final state is literally the input state with only those
two fields replaced — and every other component (the terminal backend state,
the device availability, the layout engine's own init flag) is unchanged;
`ProgState` has no wrapper-owned component, matching that the file introduces
no mutable state of its own. -/
theorem claim_C4 (s : ProgState) :
    ( Clay_Termbox_SetMeasureText s).fst
      = { s with clay :=
          { s.clay with
            measureFn := some MeasureFn.clayTermboxMeasureText
            measureCtx := Ptr.null } }
    ∧ ( Clay_Termbox_SetMeasureText s).fst.termbox = s.termbox
    ∧ ( Clay_Termbox_SetMeasureText s).fst.deviceAvailable
      = s.deviceAvailable
    ∧ ( Clay_Termbox_SetMeasureText s).fst.clay.initDone = s.clay.initDone :=
  ⟨rfl, rfl, rfl, rfl⟩

/-- The trace of the documented startup run when the terminal device is
acquirable: exactly the three vendored calls, in the documented order. -/
theorem startupRun_trace (color_mode : Int)
    (border_mode border_chars image_mode : Nat) (transparency : Bool)
    (s : ProgState) (hdev : s.deviceAvailable = true) :
    (startupRun color_mode border_mode border_chars image_mode transparency
        s).snd
      = [BackendCall.initTermbox color_mode border_mode border_chars
          image_mode transparency,
         BackendCall.initClay,
         BackendCall.setMeasureTextFn MeasureFn.clayTermboxMeasureText
          Ptr.null] := by
  unfold startupRun Clay_Termbox_Initialize_With_MeasureText
    Clay_Termbox_Initialize
  rw [hdev]
  rfl

/-- C5: the documented startup sequence emits its vendored calls in exactly
the order terminal-backend init, layout-engine init, callback registration;
neither wrapper function ever emits the layout engine's own init call (it is
external to the wrapper); and in the run's trace no registration event
precedes the layout-engine init event. -/
theorem claim_C5 (color_mode : Int)
    (border_mode border_chars image_mode : Nat) (transparency : Bool)
    (s : ProgState) (hdev : s.deviceAvailable = true) :
    (startupRun color_mode border_mode border_chars image_mode transparency
        s).snd
      = [BackendCall.initTermbox color_mode border_mode border_chars
          image_mode transparency,
         BackendCall.initClay,
         BackendCall.setMeasureTextFn MeasureFn.clayTermboxMeasureText
          Ptr.null]
    ∧ (∀ s2 : ProgState, BackendCall.initClay
        ∉ ( Clay_Termbox_Initialize_With_MeasureText color_mode border_mode
            border_chars image_mode transparency s2).snd)
    ∧ (∀ s2 : ProgState,
        BackendCall.initClay ∉ ( Clay_Termbox_SetMeasureText s2).snd)
    ∧ (∀ i j : Nat, ∀ fn : MeasureFn, ∀ ctx : Ptr,
        (startupRun color_mode border_mode border_chars image_mode
            transparency s).snd.get? i
          = some (BackendCall.setMeasureTextFn fn ctx) →
        (startupRun color_mode border_mode border_chars image_mode
            transparency s).snd.get? j = some BackendCall.initClay →
        j < i) := by
  have htr := startupRun_trace color_mode border_mode border_chars image_mode
    transparency s hdev
  refine ⟨htr, ?_, ?_, ?_⟩
  · intro s2
    simp [ Clay_Termbox_Initialize_With_MeasureText,
      Clay_Termbox_Initialize]
  · intro s2
    simp [ Clay_Termbox_SetMeasureText, Clay_SetMeasureTextFunction]
  · intro i j fn ctx hi hj
    rw [htr] at hi hj
    rcases i with _ | _ | _ | i <;> rcases j with _ | _ | _ | j <;>
      simp_all

/-- Witness for C5: the startup run from the concrete acquirable state with
a concrete configuration emits exactly the documented three calls in
order. -/
theorem claim_C5_witness :
    sampleState.deviceAvailable = true
    ∧ (startupRun 216 1 2 3 true sampleState).snd
      = [BackendCall.initTermbox 216 1 2 3 true,
         BackendCall.initClay,
         BackendCall.setMeasureTextFn MeasureFn.clayTermboxMeasureText
          Ptr.null] :=
  ⟨rfl, (claim_C5 216 1 2 3 true sampleState rfl).1⟩

/-- C6: despite its name, ` Clay_Termbox_Initialize_With_MeasureText` does
not register any text-measurement callback: after it returns (and likewise
when it fails fatally) the layout engine's measurement-callback pointer and
its context are exactly what they were before the call, while
` Clay_Termbox_SetMeasureText` is the (only) wrapper entry point that does
set it. -/
theorem claim_C6 (color_mode : Int)
    (border_mode border_chars image_mode : Nat) (transparency : Bool)
    (s : ProgState) :
    (stateAfter ( Clay_Termbox_Initialize_With_MeasureText color_mode
        border_mode border_chars image_mode transparency s).fst
        s).clay.measureFn
      = s.clay.measureFn
    ∧ (stateAfter ( Clay_Termbox_Initialize_With_MeasureText color_mode
        border_mode border_chars image_mode transparency s).fst
        s).clay.measureCtx
      = s.clay.measureCtx
    ∧ ( Clay_Termbox_SetMeasureText s).fst.clay.measureFn
      = some MeasureFn.clayTermboxMeasureText := by
  have key : (stateAfter ( Clay_Termbox_Initialize_With_MeasureText
      color_mode border_mode border_chars image_mode transparency s).fst
      s).clay = s.clay := by
    by_cases h : s.deviceAvailable = true
    · simp [ Clay_Termbox_Initialize_With_MeasureText,
        Clay_Termbox_Initialize, stateAfter, h]
    · simp [ Clay_Termbox_Initialize_With_MeasureText,
        Clay_Termbox_Initialize, stateAfter, h]
  exact ⟨by rw [key], by rw [key], rfl⟩

/-- C7: the translation unit defines TB_OPT_ATTR_W as 32, and does so before
the include of the terminal-rendering library, so the terminal backend is
compiled with 32-bit attributes, which support truecolor output. -/
theorem claim_C7 :
    flagValueAtInclude translationUnit "../termbox2/termbox2.h"
        "TB_OPT_ATTR_W"
      = some (some 32)
    ∧ tbAttrWidth translationUnit = 32
    ∧ tbSupportsTruecolor translationUnit = true
    ∧ CDirective.cdefine "TB_OPT_ATTR_W" (some 32)
        ∈ directivesBefore translationUnit "../termbox2/termbox2.h" := by
  refine ⟨?_, ?_, ?_, ?_⟩ <;> decide

/-- The program state a successful documented startup from `s` reaches:
terminal backend ready with the given configuration, layout engine
initialized, and the backend measure function registered with a null
context. -/
def startupSuccessState (color_mode : Int)
    (border_mode border_chars image_mode : Nat) (transparency : Bool)
    (s : ProgState) : ProgState :=
  { clay := { initDone := true
              measureFn := some MeasureFn.clayTermboxMeasureText
              measureCtx := Ptr.null }
    termbox := { ready := true
                 colorMode := color_mode
                 borderMode := border_mode
                 borderChars := border_chars
                 imageMode := image_mode
                 transparency := transparency }
    deviceAvailable := s.deviceAvailable }

/-- When the terminal device is acquirable, the documented startup run
succeeds and its outcome is `startupSuccessState`. -/
theorem startupRun_fst (color_mode : Int)
    (border_mode border_chars image_mode : Nat) (transparency : Bool)
    (s : ProgState) (hdev : s.deviceAvailable = true) :
    (startupRun color_mode border_mode border_chars image_mode transparency
        s).fst
      = Except.ok (startupSuccessState color_mode border_mode border_chars
          image_mode transparency s) := by
  unfold startupRun Clay_Termbox_Initialize_With_MeasureText
    Clay_Termbox_Initialize startupSuccessState
  rw [hdev]
  rfl

/-- C8: every run that performs the documented sequence — terminal init,
layout-engine init, callback registration — from a state whose terminal
device is acquirable succeeds, and afterwards the layout engine's
measurement callback is defined (not `none`), so measuring any text does not
hit the missing-callback error branch. -/
theorem claim_C8 (color_mode : Int)
    (border_mode border_chars image_mode : Nat) (transparency : Bool)
    (s : ProgState) (hdev : s.deviceAvailable = true) :
    (startupRun color_mode border_mode border_chars image_mode transparency
        s).fst
      = Except.ok (startupFinalState color_mode border_mode border_chars
          image_mode transparency s)
    ∧ (startupFinalState color_mode border_mode border_chars image_mode
        transparency s).clay.measureFn
      = some MeasureFn.clayTermboxMeasureText
    ∧ (startupFinalState color_mode border_mode border_chars image_mode
        transparency s).clay.measureFn ≠ none
    ∧ (∀ text : String,
        measureSucceeds (startupFinalState color_mode border_mode
          border_chars image_mode transparency s) text = true) := by
  have hfst := startupRun_fst color_mode border_mode border_chars image_mode
    transparency s hdev
  have hfin : startupFinalState color_mode border_mode border_chars
      image_mode transparency s
      = startupSuccessState color_mode border_mode border_chars image_mode
          transparency s := by
    unfold startupFinalState
    rw [hfst]
    rfl
  refine ⟨by rw [hfst, hfin], by rw [hfin]; rfl,
    by rw [hfin]; simp [startupSuccessState], ?_⟩
  intro text
  rw [hfin]
  rfl

/-- Witness for C8: from the concrete acquirable state with a concrete
configuration, the startup run succeeds and measuring a concrete text does
not hit the missing-callback error branch. -/
theorem claim_C8_witness :
    sampleState.deviceAvailable = true
    ∧ measureSucceeds
        (startupFinalState 216 1 2 3 true sampleState) "hello" = true :=
  ⟨rfl, (claim_C8 216 1 2 3 true sampleState rfl).2.2.2 "hello"⟩

/-- C9: the registration wrapper always passes NULL as the user-context
argument: the emitted registration call carries the null pointer, the
registered context afterwards is the null pointer, and a subsequent text
measurement invokes the registered callback with the null context, never
with caller-supplied data. -/
theorem claim_C9 (s : ProgState) (text : String) :
    ( Clay_Termbox_SetMeasureText s).snd
      = [BackendCall.setMeasureTextFn MeasureFn.clayTermboxMeasureText
          Ptr.null]
    ∧ ( Clay_Termbox_SetMeasureText s).fst.clay.measureCtx = Ptr.null
    ∧ Clay_MeasureTextDispatch ( Clay_Termbox_SetMeasureText s).fst text
      = Except.ok (applyMeasureFn MeasureFn.clayTermboxMeasureText text,
          Ptr.null) :=
  ⟨rfl, rfl, rfl⟩

/-- C10: ` Clay_Termbox_SetMeasureText` is idempotent: from any state, two
successive calls reach the same final state as one call (each call writes
the same constant pair into the registration), and the second call emits the
same single registration call as the first. -/
theorem claim_C10 (s : ProgState) :
    ( Clay_Termbox_SetMeasureText ( Clay_Termbox_SetMeasureText s).fst).fst
      = ( Clay_Termbox_SetMeasureText s).fst
    ∧ ( Clay_Termbox_SetMeasureText ( Clay_Termbox_SetMeasureText s).fst).snd
      = ( Clay_Termbox_SetMeasureText s).snd :=
  ⟨rfl, rfl⟩

end ClayTermbox
